import Mathlib

/-
  Verification development for the christmas-tree interactive installation.

  The embedding below translates the gesture classifier (src/hooks/useHandGesture.ts),
  the formation generators and particle caching (src/components/christmas/ParticleSystem.tsx),
  the photo-card spring choreography (PhotoCards in GestureIndicator.tsx's bundle),
  and the mouse/touch fallback controller (useMouseFallback) into Lean.

  Conventions:
  - JavaScript numbers are modelled by ℚ where the code only performs field
    arithmetic and comparisons, and by ℝ where the code uses transcendental
    functions (cos, sin, acos, pow with fractional exponent, π).
  - The code compares `Math.sqrt(sumOfSquares) < 0.06`; since `Real.sqrt` is
    strictly monotone on nonnegatives this is equivalent to comparing the
    squared distance against `0.06 ^ 2`, which is what the executable
    embedding does (the equivalence is proved in `sqrt_lt_threshold_iff`).
  - `Math.random()` draws are passed as explicit extra arguments, one per
    call site, in call-site order.
-/

namespace Christmas

/-- Scene mode, from src/types/christmas.ts: type TreeState = tree | galaxy | focus. -/
inductive TreeState where
  | tree
  | galaxy
  | focus
deriving DecidableEq, Repr

/-- Gesture alphabet, from src/types/christmas.ts. The constructor `open_`
models the source string 'open' (`open` is a Lean keyword). -/
inductive GestureType where
  | none
  | fist
  | open_
  | pinch
  | pointing
deriving DecidableEq, Repr

/-- One MediaPipe hand landmark: normalized x, y, z coordinates. -/
structure Landmark where
  x : ℚ
  y : ℚ
  z : ℚ
deriving DecidableEq, Repr

instance : Inhabited Landmark := ⟨⟨0, 0, 0⟩⟩

/-- Squared form of calculateFingerDistance (useHandGesture.ts lines 22-30):
the source returns `Math.sqrt((p1.x-p2.x)^2 + (p1.y-p2.y)^2 + (p1.z-p2.z)^2)`;
the embedding keeps the radicand, and every comparison of the source distance
against a threshold c becomes a comparison against c ^ 2 (Real.sqrt is strictly
monotone on nonnegatives, see `sqrt_lt_threshold_iff`). Out-of-range indices
read the default landmark; the classifier only reads indices below the
guarded length 21. -/
def fingerDistSq (landmarks : List Landmark) (finger1 finger2 : ℕ) : ℚ :=
  let p1 := landmarks.getD finger1 default
  let p2 := landmarks.getD finger2 default
  (p1.x - p2.x) ^ 2 + (p1.y - p2.y) ^ 2 + (p1.z - p2.z) ^ 2

/-- Whether a finger is extended (useHandGesture.ts lines 57-60): tip's y
strictly below the MCP knuckle's y. -/
def fingerExtended (landmarks : List Landmark) (tip mcp : ℕ) : Bool :=
  decide ((landmarks.getD tip default).y < (landmarks.getD mcp default).y)

/-- extendedCount (useHandGesture.ts line 62): number of extended fingers among
index (8/5), middle (12/9), ring (16/13), pinky (20/17). -/
def extendedCount (landmarks : List Landmark) : ℕ :=
  ([fingerExtended landmarks 8 5,
    fingerExtended landmarks 12 9,
    fingerExtended landmarks 16 13,
    fingerExtended landmarks 20 17].filter (fun b => b)).length

/-- The pointing branch's condition (useHandGesture.ts line 75):
indexExtended && !middleExtended && !ringExtended && !pinkyExtended. -/
def pointingCondition (landmarks : List Landmark) : Bool :=
  fingerExtended landmarks 8 5 && !fingerExtended landmarks 12 9 &&
    !fingerExtended landmarks 16 13 && !fingerExtended landmarks 20 17

/-- detectGesture (useHandGesture.ts lines 32-80). `Option.none` models a
missing/null landmarks argument. Branch order follows the source: the length
guard, then pinch, then extendedCount >= 3, then extendedCount <= 1, then the
(unreachable) pointing condition, then the 'none' bucket. Total by
construction: it returns a GestureType for every input and cannot raise. -/
def detectGesture : Option (List Landmark) → GestureType
  | Option.none => GestureType.none
  | Option.some landmarks =>
    if landmarks.length < 21 then GestureType.none
    else if fingerDistSq landmarks 4 8 < 0.06 ^ 2 then GestureType.pinch
    else if 3 ≤ extendedCount landmarks then GestureType.open_
    else if extendedCount landmarks ≤ 1 then GestureType.fist
    else if pointingCondition landmarks then GestureType.pointing
    else GestureType.none

/-- Published hand-gesture state (src/types/christmas.ts HandGestureState).
`pinchDistanceSq` holds the squared form of the source's pinchDistance. -/
structure HandGestureState where
  gesture : GestureType
  handPosition : Option (ℚ × ℚ)
  pinchDistanceSq : ℚ
  isTracking : Bool
deriving DecidableEq, Repr

/-- onResults (useHandGesture.ts lines 82-115). Input is
results.multiHandLandmarks (empty list when no hand is detected; the source
checks `length > 0` and reads element 0). Returns the new published state, the
new lastGestureRef value, and whether onGestureChange fired. When the gesture
equals lastGesture the source leaves the ref unchanged, which is the same
value, so the ref is always `gesture` on the tracked branch. -/
def onResults (hands : List (List Landmark)) (prev : HandGestureState)
    (lastGesture : GestureType) : HandGestureState × GestureType × Bool :=
  match hands with
  | [] => ({ prev with isTracking := false, handPosition := Option.none }, lastGesture, false)
  | landmarks :: _ =>
    let gesture := detectGesture (Option.some landmarks)
    let palmCenter := landmarks.getD 9 default
    let handPosition := Option.some (1 - palmCenter.x, palmCenter.y)
    let pinchDistanceSq := fingerDistSq landmarks 4 8
    let fired := decide (gesture ≠ lastGesture)
    ({ gesture := gesture, handPosition := handPosition,
       pinchDistanceSq := pinchDistanceSq, isTracking := true }, gesture, fired)

/-- The gesture a tracking-results frame classifies to, when a hand is present. -/
def frameGesture (hands : List (List Landmark)) : Option GestureType :=
  match hands with
  | [] => Option.none
  | landmarks :: _ => Option.some (detectGesture (Option.some landmarks))

/-- Number of onGestureChange callback fires over a sequence of tracking
frames, threading the published state and lastGestureRef exactly as onResults
does. -/
def countFires (prev : HandGestureState) (lastGesture : GestureType) :
    List (List (List Landmark)) → ℕ
  | [] => 0
  | f :: fs =>
    let r := onResults f prev lastGesture
    (if r.2.2 then 1 else 0) + countFires r.1 r.2.1 fs

/-- Initial published state (useHandGesture.ts lines 10-15): gesture 'none',
no hand position, pinch distance 1, not tracking. -/
def initState : HandGestureState :=
  { gesture := GestureType.none, handPosition := Option.none,
    pinchDistanceSq := 1, isTracking := false }

/-- A 21-point frame lying flat on the y = 0 line with distinct x values:
no pinch (thumb-index distance 4), no finger extended. -/
def flatHand : List Landmark :=
  [⟨0, 0, 0⟩, ⟨1, 0, 0⟩, ⟨2, 0, 0⟩, ⟨3, 0, 0⟩, ⟨4, 0, 0⟩, ⟨5, 0, 0⟩, ⟨6, 0, 0⟩,
   ⟨7, 0, 0⟩, ⟨8, 0, 0⟩, ⟨9, 0, 0⟩, ⟨10, 0, 0⟩, ⟨11, 0, 0⟩, ⟨12, 0, 0⟩, ⟨13, 0, 0⟩,
   ⟨14, 0, 0⟩, ⟨15, 0, 0⟩, ⟨16, 0, 0⟩, ⟨17, 0, 0⟩, ⟨18, 0, 0⟩, ⟨19, 0, 0⟩, ⟨20, 0, 0⟩]

/-- flatHand with the index tip (landmark 8) raised: exactly the index finger
is extended, all other fingers flexed, and no pinch (thumb-index squared
distance 17). -/
def pointingHand : List Landmark :=
  [⟨0, 0, 0⟩, ⟨1, 0, 0⟩, ⟨2, 0, 0⟩, ⟨3, 0, 0⟩, ⟨4, 0, 0⟩, ⟨5, 0, 0⟩, ⟨6, 0, 0⟩,
   ⟨7, 0, 0⟩, ⟨8, -1, 0⟩, ⟨9, 0, 0⟩, ⟨10, 0, 0⟩, ⟨11, 0, 0⟩, ⟨12, 0, 0⟩, ⟨13, 0, 0⟩,
   ⟨14, 0, 0⟩, ⟨15, 0, 0⟩, ⟨16, 0, 0⟩, ⟨17, 0, 0⟩, ⟨18, 0, 0⟩, ⟨19, 0, 0⟩, ⟨20, 0, 0⟩]

/-- A 21-point frame with all landmarks coincident: pinch distance 0. -/
def pinchHand : List Landmark :=
  [⟨0, 0, 0⟩, ⟨0, 0, 0⟩, ⟨0, 0, 0⟩, ⟨0, 0, 0⟩, ⟨0, 0, 0⟩, ⟨0, 0, 0⟩, ⟨0, 0, 0⟩,
   ⟨0, 0, 0⟩, ⟨0, 0, 0⟩, ⟨0, 0, 0⟩, ⟨0, 0, 0⟩, ⟨0, 0, 0⟩, ⟨0, 0, 0⟩, ⟨0, 0, 0⟩,
   ⟨0, 0, 0⟩, ⟨0, 0, 0⟩, ⟨0, 0, 0⟩, ⟨0, 0, 0⟩, ⟨0, 0, 0⟩, ⟨0, 0, 0⟩, ⟨0, 0, 0⟩]

/-- 3D vector over ℚ, modelling THREE.Vector3 values held by photo cards. -/
structure Vec3 where
  x : ℚ
  y : ℚ
  z : ℚ
deriving DecidableEq, Repr

/-- Componentwise sum (THREE.Vector3.add, value form). -/
def Vec3.add (a b : Vec3) : Vec3 := ⟨a.x + b.x, a.y + b.y, a.z + b.z⟩

/-- Componentwise difference (THREE.Vector3.sub, value form). -/
def Vec3.sub (a b : Vec3) : Vec3 := ⟨a.x - b.x, a.y - b.y, a.z - b.z⟩

/-- Scalar multiple (THREE.Vector3.multiplyScalar, value form). -/
def Vec3.multiplyScalar (a : Vec3) (k : ℚ) : Vec3 := ⟨a.x * k, a.y * k, a.z * k⟩

/-- Spring physics constants (GestureIndicator.tsx bundle, PhotoCards lines 133-136). -/
def SPRING_STIFFNESS : ℚ := 25

/-- Spring damping constant for position. -/
def SPRING_DAMPING : ℚ := 8

/-- Spring stiffness constant for scale. -/
def SCALE_STIFFNESS : ℚ := 30

/-- Spring damping constant for scale. -/
def SCALE_DAMPING : ℚ := 10

/-- Per-card animation state (CardData in the PhotoCards module; texture and
textureUrl are rendering-collaborator state and carry no dynamics). -/
structure CardData where
  treePosition : Vec3
  galaxyPosition : Vec3
  position : Vec3
  velocity : Vec3
  scale : ℚ
  scaleVelocity : ℚ
  time : ℚ
deriving DecidableEq, Repr

/-- One per-frame update of one photo card, translated from the PhotoCards
useFrame body (lines 263-298): dt clamp, focus/tree/galaxy target selection,
damped-spring integration of position then scale, in source operation order
(position is advanced with the already-updated velocity, scale with the
already-updated scaleVelocity). `focused` models `focusedIndex === i`. -/
def stepCard (state : TreeState) (focused : Bool) (delta : ℚ) (card : CardData) : CardData :=
  let dt := min delta 0.033
  let time := card.time + dt
  let targetPos :=
    if focused then (⟨0, 0, 0.8⟩ : Vec3)
    else if state = TreeState.tree then card.treePosition
    else card.galaxyPosition
  let targetScale : ℚ := if focused then 5 else 0.4
  let displacement := card.position.sub targetPos
  let springForce := displacement.multiplyScalar (-SPRING_STIFFNESS)
  let dampingForce := card.velocity.multiplyScalar (-SPRING_DAMPING)
  let acceleration := springForce.add dampingForce
  let velocity := card.velocity.add (acceleration.multiplyScalar dt)
  let position := card.position.add (velocity.multiplyScalar dt)
  let scaleDisplacement := card.scale - targetScale
  let scaleSpringForce := -SCALE_STIFFNESS * scaleDisplacement
  let scaleDampingForce := -SCALE_DAMPING * card.scaleVelocity
  let scaleVelocity := card.scaleVelocity + (scaleSpringForce + scaleDampingForce) * dt
  let scale := card.scale + scaleVelocity * dt
  { card with time := time, position := position, velocity := velocity,
              scale := scale, scaleVelocity := scaleVelocity }

/-- Written from the spec and claim wording for the per-frame photo-card
update, to be compared with `stepCard`: dt = min(delta, 0.033); target is the
focus target (0,0,0.8) with target scale 5 when focused, else the tree target
in tree mode or the galaxy target in galaxy mode with target scale 0.4;
velocity += (−25·(position − target) − 8·velocity)·dt, then
position += velocity·dt; scaleVelocity += (−30·(scale − targetScale)
− 10·scaleVelocity)·dt, then scale += scaleVelocity·dt. -/
def specCardStep (state : TreeState) (focused : Bool) (delta : ℚ) (card : CardData) : CardData :=
  let dt := min delta 0.033
  let target :=
    if focused then (⟨0, 0, 0.8⟩ : Vec3)
    else if state = TreeState.tree then card.treePosition
    else card.galaxyPosition
  let targetScale : ℚ := if focused then 5 else 0.4
  let velocity := card.velocity.add
    ((((card.position.sub target).multiplyScalar (-25)).sub
      (card.velocity.multiplyScalar 8)).multiplyScalar dt)
  let position := card.position.add (velocity.multiplyScalar dt)
  let scaleVelocity := card.scaleVelocity +
    (-30 * (card.scale - targetScale) - 10 * card.scaleVelocity) * dt
  let scale := card.scale + scaleVelocity * dt
  { card with position := position, velocity := velocity,
              scale := scale, scaleVelocity := scaleVelocity }

/-- Immutable per-element targets (ParticleSystem.tsx: each particleData entry
holds treePosition and galaxyPosition, generated once inside useMemo and never
written afterwards). -/
structure ParticleEntry where
  treePosition : Vec3
  galaxyPosition : Vec3
deriving DecidableEq, Repr

/-- The per-element target list a mode implies (ParticleSystem.tsx lines
121-123 and the matching selections in GemOrnaments, TetrahedronSpiral and
PhotoCards): tree mode reads the cached treePosition, any other mode the
cached galaxyPosition. -/
def targetPositions (state : TreeState) (data : List ParticleEntry) : List Vec3 :=
  if state = TreeState.tree then data.map (fun p => p.treePosition)
  else data.map (fun p => p.galaxyPosition)

/-- A particle collection: the immutable cached per-element data plus the
targets currently being tweened toward. -/
structure SceneSys where
  particleData : List ParticleEntry
  targets : List Vec3
deriving DecidableEq, Repr

/-- One mode switch (the useEffect on [state, particleData]): recomputes the
target list from the cached data; the cached data itself is never touched. -/
def switchMode (state : TreeState) (sys : SceneSys) : SceneSys :=
  { particleData := sys.particleData, targets := targetPositions state sys.particleData }

/-- Folds a sequence of mode switches over a particle collection. -/
def runSwitches (sys : SceneSys) : List TreeState → SceneSys
  | [] => sys
  | m :: ms => runSwitches (switchMode m sys) ms

/-- Mouse-fallback controller state (useMouseFallback): the last-press
timestamp ref, the scene mode owned via onStateChange, and the drag flag.
Drag-start coordinates and orbit rotation are not involved in press handling
and are omitted. -/
structure MouseFallbackState where
  lastClick : ℤ
  currentState : TreeState
  isDragging : Bool
deriving DecidableEq, Repr

/-- The direct tree/galaxy toggle applied on a double press:
currentState === 'tree' ? 'galaxy' : 'tree'. -/
def toggleState (s : TreeState) : TreeState :=
  if s = TreeState.tree then TreeState.galaxy else TreeState.tree

/-- handleMouseDown (useMouseFallback lines 47-64): when enabled, a press
within 300 ms of the stored timestamp toggles the mode and resets the stored
timestamp to 0; otherwise the press is recorded and a drag begins. Timestamps
are Date.now() values in ms. No gesture input is consulted. -/
def handleMouseDown (enabled : Bool) (now : ℤ) (s : MouseFallbackState) : MouseFallbackState :=
  if !enabled then s
  else if now - s.lastClick < 300 then
    { s with currentState := toggleState s.currentState, lastClick := 0 }
  else
    { s with lastClick := now, isDragging := true }

/-- handleTouchStart (useMouseFallback lines 99-115): identical to
handleMouseDown but additionally requires exactly one active touch. -/
def handleTouchStart (enabled : Bool) (touches : ℕ) (now : ℤ) (s : MouseFallbackState) :
    MouseFallbackState :=
  if !enabled || touches ≠ 1 then s
  else if now - s.lastClick < 300 then
    { s with currentState := toggleState s.currentState, lastClick := 0 }
  else
    { s with lastClick := now, isDragging := true }

/-- A sequence of mouse presses at the given timestamps. -/
def pressTrace (s : MouseFallbackState) (times : List ℤ) : MouseFallbackState :=
  times.foldl (fun acc t => handleMouseDown true t acc) s

/-- generateTreePosition (ParticleSystem.tsx lines 13-31). The two
Math.random() draws are the explicit arguments r1 (angle, line 23) and r2
(radius variation, line 24), in call-site order. Uses real-valued rpow, cos,
sin and π as the source uses Math.pow, Math.cos, Math.sin, Math.PI. -/
noncomputable def generateTreePosition (index total : ℕ) (r1 r2 : ℝ) : ℝ × ℝ × ℝ :=
  let height : ℝ := 8
  let maxRadius : ℝ := 3.5
  let t : ℝ := ((index : ℝ) / (total : ℝ)) ^ (0.8 : ℝ)
  let y := t * height - height / 2
  let layerRadius := maxRadius * (1 - t * 0.95)
  let angle := r1 * Real.pi * 2
  let radiusVariation := 0.7 + r2 * 0.3
  let radius := layerRadius * radiusVariation
  (Real.cos angle * radius, y, Real.sin angle * radius)

/-- generateGalaxyPosition (ParticleSystem.tsx lines 34-44). The three
Math.random() draws are the explicit arguments r1 (radius), r2 (theta), r3
(phi), in call-site order. -/
noncomputable def generateGalaxyPosition (r1 r2 r3 : ℝ) : ℝ × ℝ × ℝ :=
  let radius := 5 + r1 * 10
  let theta := r2 * Real.pi * 2
  let phi := Real.arccos (2 * r3 - 1)
  (radius * Real.sin phi * Real.cos theta,
   radius * Real.sin phi * Real.sin theta * 0.5,
   radius * Real.cos phi)

/-- Squared Euclidean norm of a point. -/
noncomputable def normSq3 (p : ℝ × ℝ × ℝ) : ℝ :=
  p.1 ^ 2 + p.2.1 ^ 2 + p.2.2 ^ 2

/-- Euclidean distance of a point from the origin. -/
noncomputable def norm3 (p : ℝ × ℝ × ℝ) : ℝ :=
  Real.sqrt (normSq3 p)

/-- Justifies the squared-distance embedding of the pinch test: comparing the
source's `Math.sqrt(sumOfSquares) < c` (for a positive threshold c) is the
same as comparing the radicand against c squared. -/
lemma sqrt_lt_threshold_iff (d c : ℝ) (hc : 0 < c) : Real.sqrt d < c ↔ d < c ^ 2 :=
  Real.sqrt_lt' hc

/-- If the pointing branch's condition holds then exactly one finger (the
index) is extended, so the earlier extendedCount <= 1 branch has already
returned 'fist': the pointing branch is unreachable. -/
lemma pointingCondition_count (l : List Landmark) (h : pointingCondition l = true) :
    extendedCount l = 1 := by
  unfold pointingCondition at h
  unfold extendedCount
  cases h8 : fingerExtended l 8 5 <;> cases h12 : fingerExtended l 12 9 <;>
    cases h16 : fingerExtended l 16 13 <;> cases h20 : fingerExtended l 20 17 <;>
    simp_all [List.filter]

/-- Claim C3 (confirmed): pinch precedence. For every frame with at least 21
landmarks whose thumb-tip/index-tip squared distance is below the squared
threshold 0.06^2 (equivalently, Euclidean distance below 0.06), detectGesture
returns 'pinch', regardless of any finger's extended/flexed state. -/
theorem C3_pinch_precedence (l : List Landmark) (h21 : 21 ≤ l.length)
    (hp : fingerDistSq l 4 8 < 0.06 ^ 2) :
    detectGesture (Option.some l) = GestureType.pinch := by
  simp only [detectGesture]
  rw [if_neg (by omega), if_pos hp]

/-- Witness for C3 at the all-coincident frame (pinch distance 0). -/
theorem C3_witness :
    21 ≤ pinchHand.length ∧ fingerDistSq pinchHand 4 8 < 0.06 ^ 2 ∧
    detectGesture (Option.some pinchHand) = GestureType.pinch :=
  ⟨by norm_num [pinchHand], by norm_num [pinchHand, fingerDistSq],
   C3_pinch_precedence pinchHand (by norm_num [pinchHand])
     (by norm_num [pinchHand, fingerDistSq])⟩

/-- Claim C4 (confirmed): degenerate-input safety. A missing frame and any
frame with fewer than 21 landmarks classify as 'none'; the classifier is a
total Lean function, so it returns a value on every input and cannot raise. -/
theorem C4_degenerate :
    detectGesture Option.none = GestureType.none ∧
    ∀ l : List Landmark, l.length < 21 → detectGesture (Option.some l) = GestureType.none := by
  refine ⟨rfl, fun l h => ?_⟩
  simp only [detectGesture]
  rw [if_pos h]

/-- Witness for C4 at the empty landmark list. -/
theorem C4_witness :
    ([] : List Landmark).length < 21 ∧
    detectGesture (Option.some ([] : List Landmark)) = GestureType.none :=
  ⟨by norm_num, C4_degenerate.2 [] (by norm_num)⟩

/-- Counterexample to claim C1: pointingHand has at least 21 points, is not a
pinch, and has exactly the index finger extended with middle/ring/pinky
flexed, yet detectGesture returns 'fist', not the 'pointing' the claim
demands (the pointing branch is shadowed by the extendedCount <= 1 branch). -/
theorem C1_counterexample :
    0.06 ^ 2 ≤ fingerDistSq pointingHand 4 8 ∧
    fingerExtended pointingHand 8 5 = true ∧
    fingerExtended pointingHand 12 9 = false ∧
    fingerExtended pointingHand 16 13 = false ∧
    fingerExtended pointingHand 20 17 = false ∧
    detectGesture (Option.some pointingHand) = GestureType.fist := by
  refine ⟨by norm_num [pointingHand, fingerDistSq], ?_, ?_, ?_, ?_, ?_⟩
  · norm_num [pointingHand, fingerExtended]
  · norm_num [pointingHand, fingerExtended]
  · norm_num [pointingHand, fingerExtended]
  · norm_num [pointingHand, fingerExtended]
  · norm_num [detectGesture, pointingHand, fingerDistSq, extendedCount,
      fingerExtended, pointingCondition]

/-- Claim C1 as amended: for frames with at least 21 points and no pinch,
detectGesture returns 'open' when at least 3 fingers are extended, 'fist'
when at most 1 is extended (which includes the exactly-index-extended case),
'none' when exactly 2 are extended, and never returns 'pointing'. -/
theorem C1_amended (l : List Landmark) (h21 : 21 ≤ l.length)
    (hnp : ¬ fingerDistSq l 4 8 < 0.06 ^ 2) :
    (3 ≤ extendedCount l → detectGesture (Option.some l) = GestureType.open_) ∧
    (extendedCount l ≤ 1 → detectGesture (Option.some l) = GestureType.fist) ∧
    (extendedCount l = 2 → detectGesture (Option.some l) = GestureType.none) ∧
    detectGesture (Option.some l) ≠ GestureType.pointing := by
  have hbase : detectGesture (Option.some l) =
      (if 3 ≤ extendedCount l then GestureType.open_
       else if extendedCount l ≤ 1 then GestureType.fist
       else if pointingCondition l then GestureType.pointing
       else GestureType.none) := by
    simp only [detectGesture]
    rw [if_neg (by omega), if_neg hnp]
  have hpc : ¬ 3 ≤ extendedCount l → ¬ extendedCount l ≤ 1 →
      ¬ pointingCondition l = true := by
    intro h3 h1 hc
    have := pointingCondition_count l hc
    omega
  refine ⟨fun h => ?_, fun h => ?_, fun h => ?_, ?_⟩
  · rw [hbase, if_pos h]
  · rw [hbase, if_neg (by omega), if_pos h]
  · rw [hbase, if_neg (by omega), if_neg (by omega),
      if_neg (hpc (by omega) (by omega))]
  · rcases Nat.lt_or_ge (extendedCount l) 3 with hlt | hge
    · rcases Nat.lt_or_ge (extendedCount l) 2 with hle | hgt
      · rw [hbase, if_neg (by omega), if_pos (by omega)]
        exact fun hcontra => by cases hcontra
      · rw [hbase, if_neg (by omega), if_neg (by omega),
          if_neg (hpc (by omega) (by omega))]
        exact fun hcontra => by cases hcontra
    · rw [hbase, if_pos hge]
      exact fun hcontra => by cases hcontra

/-- Witness for the amended C1 at flatHand (no finger extended, no pinch). -/
theorem C1_witness :
    21 ≤ flatHand.length ∧ (¬ fingerDistSq flatHand 4 8 < 0.06 ^ 2) ∧
    ((3 ≤ extendedCount flatHand →
        detectGesture (Option.some flatHand) = GestureType.open_) ∧
     (extendedCount flatHand ≤ 1 →
        detectGesture (Option.some flatHand) = GestureType.fist) ∧
     (extendedCount flatHand = 2 →
        detectGesture (Option.some flatHand) = GestureType.none) ∧
     detectGesture (Option.some flatHand) ≠ GestureType.pointing) :=
  ⟨by norm_num [flatHand], by norm_num [flatHand, fingerDistSq],
   C1_amended flatHand (by norm_num [flatHand]) (by norm_num [flatHand, fingerDistSq])⟩

/-- Claim C10 (confirmed): when a tracking results frame contains no detected
hand, the published state keeps the previous gesture (and pinch distance)
unchanged, only isTracking becomes false and handPosition null; the
lastGestureRef is untouched and the gesture-change callback does not fire. -/
theorem C10_no_hand (prev : HandGestureState) (lastGesture : GestureType) :
    (onResults [] prev lastGesture).1.gesture = prev.gesture ∧
    (onResults [] prev lastGesture).1.pinchDistanceSq = prev.pinchDistanceSq ∧
    (onResults [] prev lastGesture).1.isTracking = false ∧
    (onResults [] prev lastGesture).1.handPosition = Option.none ∧
    (onResults [] prev lastGesture).2.1 = lastGesture ∧
    (onResults [] prev lastGesture).2.2 = false := by
  simp [onResults]

/-- While lastGestureRef already equals the gesture every frame of a run
classifies to, no further callback fires during the run. -/
lemma countFires_steady (g : GestureType) :
    ∀ (frames : List (List (List Landmark))) (prev : HandGestureState),
      (∀ f ∈ frames, frameGesture f = Option.some g) →
      countFires prev g frames = 0 := by
  intro frames
  induction frames with
  | nil => intro prev _; rfl
  | cons f fs ih =>
    intro prev h
    have hf : frameGesture f = Option.some g := h f (List.mem_cons_self f fs)
    cases f with
    | nil => simp [frameGesture] at hf
    | cons landmarks rest =>
      simp only [frameGesture, Option.some.injEq] at hf
      have hfired : decide (g ≠ g) = false := by simp
      simp only [countFires, onResults, hf, hfired, Bool.false_eq_true, if_false, Nat.zero_add]
      exact ih _ (fun f hfm => h f (List.mem_cons_of_mem _ hfm))

/-- Claim C7 (confirmed): edge-triggering. Over any run of consecutive
tracked frames that all classify to the same gesture, the onGestureChange
callback fires at most once (on the first frame, and only if that gesture
differs from the previous lastGestureRef value), not once per frame. -/
theorem C7_edge_trigger (prev : HandGestureState) (lastGesture g : GestureType)
    (frames : List (List (List Landmark)))
    (h : ∀ f ∈ frames, frameGesture f = Option.some g) :
    countFires prev lastGesture frames ≤ 1 := by
  cases frames with
  | nil => simp [countFires]
  | cons f fs =>
    have hf : frameGesture f = Option.some g := h f (List.mem_cons_self f fs)
    cases f with
    | nil => simp [frameGesture] at hf
    | cons landmarks rest =>
      simp only [frameGesture, Option.some.injEq] at hf
      simp only [countFires, onResults, hf]
      rw [countFires_steady g fs _ (fun f hfm => h f (List.mem_cons_of_mem _ hfm))]
      split <;> omega

/-- Witness for C7: two consecutive flatHand (fist) frames starting from the
initial state fire the callback at most once. -/
theorem C7_witness :
    (∀ f ∈ [[flatHand], [flatHand]], frameGesture f = Option.some GestureType.fist) ∧
    countFires initState GestureType.none [[flatHand], [flatHand]] ≤ 1 := by
  have pf : ∀ f ∈ [[flatHand], [flatHand]], frameGesture f = Option.some GestureType.fist := by
    intro f hf
    simp only [List.mem_cons, List.not_mem_nil, or_false] at hf
    rcases hf with rfl | rfl <;>
      norm_num [frameGesture, detectGesture, flatHand, fingerDistSq, extendedCount,
        fingerExtended, pointingCondition]
  exact ⟨pf, C7_edge_trigger initState GestureType.none GestureType.fist _ pf⟩

/-- Mode switches never touch the cached per-element formation targets. -/
lemma runSwitches_particleData (ms : List TreeState) :
    ∀ sys : SceneSys, (runSwitches sys ms).particleData = sys.particleData := by
  induction ms with
  | nil => intro sys; rfl
  | cons m ms ih => intro sys; rw [runSwitches, ih, switchMode]

/-- Running a concatenation of switch sequences runs them in order. -/
lemma runSwitches_append (ms ns : List TreeState) :
    ∀ sys : SceneSys, runSwitches sys (ms ++ ns) = runSwitches (runSwitches sys ms) ns := by
  induction ms with
  | nil => intro sys; rfl
  | cons m ms ih => intro sys; rw [List.cons_append, runSwitches, runSwitches, ih]

/-- Claim C5 (confirmed): round-trip target stability. Any sequence of mode
switches leaves the cached per-element tree/galaxy targets untouched; after
any prefix of toggles followed by galaxy then tree, every element is
retargeted to exactly its original tree position; and the per-frame photo-card
update also never rewrites a card's cached tree or galaxy target. -/
theorem C5_round_trip (sys : SceneSys) (ms : List TreeState)
    (state : TreeState) (focused : Bool) (delta : ℚ) (card : CardData) :
    (runSwitches sys ms).particleData = sys.particleData ∧
    (runSwitches sys (ms ++ [TreeState.galaxy, TreeState.tree])).targets =
      sys.particleData.map (fun p => p.treePosition) ∧
    (stepCard state focused delta card).treePosition = card.treePosition ∧
    (stepCard state focused delta card).galaxyPosition = card.galaxyPosition := by
  refine ⟨runSwitches_particleData ms sys, ?_, rfl, rfl⟩
  rw [runSwitches_append ms [TreeState.galaxy, TreeState.tree] sys]
  simp [runSwitches, switchMode, targetPositions, runSwitches_particleData ms sys]

/-- Claim C6 (confirmed): the per-frame photo-card update computes exactly the
spring choreography step the spec states — dt = min(delta, 0.033), focus
target (0,0,0.8) with scale 5 when focused else the mode target with scale
0.4, velocity += (−25·(position−target) − 8·velocity)·dt then
position += velocity·dt, and scaleVelocity += (−30·(scale−targetScale)
− 10·scaleVelocity)·dt then scale += scaleVelocity·dt. `specCardStep` is
written from the claim's words; the code's `stepCard` agrees with it on
position, velocity, scale and scale velocity. -/
theorem C6_spring_step (state : TreeState) (focused : Bool) (delta : ℚ) (card : CardData) :
    (stepCard state focused delta card).position =
      (specCardStep state focused delta card).position ∧
    (stepCard state focused delta card).velocity =
      (specCardStep state focused delta card).velocity ∧
    (stepCard state focused delta card).scale =
      (specCardStep state focused delta card).scale ∧
    (stepCard state focused delta card).scaleVelocity =
      (specCardStep state focused delta card).scaleVelocity := by
  cases focused <;> cases state <;>
    simp only [stepCard, specCardStep, Vec3.add, Vec3.sub, Vec3.multiplyScalar,
      SPRING_STIFFNESS, SPRING_DAMPING, SCALE_STIFFNESS, SCALE_DAMPING,
      Bool.false_eq_true, if_false, if_true, Vec3.mk.injEq, reduceIte] <;>
    refine ⟨⟨by ring, by ring, by ring⟩, ⟨by ring, by ring, by ring⟩, by ring, by ring⟩

/-- Counterexample to claim C9: a triple press at 1000, 1100, 1200 ms. The
second press toggles tree to galaxy, but the third press — arriving 100 ms,
i.e. less than 300 ms, after the previous press — does not toggle back to
tree, because the toggling press reset the stored timestamp to 0. -/
theorem C9_counterexample :
    (pressTrace ⟨0, TreeState.tree, false⟩ [1000, 1100]).currentState = TreeState.galaxy ∧
    ((1200 : ℤ) - 1100 < 300) ∧
    (pressTrace ⟨0, TreeState.tree, false⟩ [1000, 1100, 1200]).currentState =
      TreeState.galaxy := by
  refine ⟨?_, by norm_num, ?_⟩ <;> decide

/-- Claim C9 as amended: a press arriving less than 300 ms after the stored
previous-press timestamp toggles the mode directly (tree becomes galaxy,
galaxy becomes tree) and resets the stored timestamp to 0 — so the press
after a double-press cannot chain another toggle; the single-touch handler
behaves identically; no gesture input is consulted (the handlers take none). -/
theorem C9_amended (now : ℤ) (s : MouseFallbackState) (h : now - s.lastClick < 300) :
    (handleMouseDown true now s).currentState = toggleState s.currentState ∧
    (handleMouseDown true now s).lastClick = 0 ∧
    handleTouchStart true 1 now s = handleMouseDown true now s ∧
    toggleState TreeState.tree = TreeState.galaxy ∧
    toggleState TreeState.galaxy = TreeState.tree := by
  refine ⟨?_, ?_, ?_, by decide, by decide⟩ <;>
    simp [handleMouseDown, handleTouchStart, if_pos h]

/-- Witness for the amended C9: a press at 100 ms with stored timestamp 0
toggles tree to galaxy. -/
theorem C9_witness :
    ((100 : ℤ) - (0 : ℤ) < 300) ∧
    ((handleMouseDown true 100 ⟨0, TreeState.tree, false⟩).currentState =
        toggleState TreeState.tree ∧
     (handleMouseDown true 100 ⟨0, TreeState.tree, false⟩).lastClick = 0 ∧
     handleTouchStart true 1 100 ⟨0, TreeState.tree, false⟩ =
        handleMouseDown true 100 ⟨0, TreeState.tree, false⟩ ∧
     toggleState TreeState.tree = TreeState.galaxy ∧
     toggleState TreeState.galaxy = TreeState.tree) :=
  ⟨by norm_num, C9_amended 100 ⟨0, TreeState.tree, false⟩ (by norm_num)⟩

/-- Counterexample to claim C2: two calls to the tree-position generator with
identical (index, total) = (0, 1) but different angle draws (0 versus 1/2)
produce different positions (x = 3.5 versus x = -3.5): the generator is not
deterministic in (index, total) alone. -/
theorem C2_counterexample :
    generateTreePosition 0 1 0 1 ≠ generateTreePosition 0 1 (1/2) 1 := by
  intro heq
  have hx := congrArg Prod.fst heq
  have ht : (((0:ℕ):ℝ) / ((1:ℕ):ℝ)) ^ (0.8:ℝ) = 0 := by
    rw [show ((0:ℕ):ℝ) / ((1:ℕ):ℝ) = 0 by norm_num]
    exact Real.zero_rpow (by norm_num)
  have ha : (0:ℝ) * Real.pi * 2 = 0 := by ring
  have hb : (1/2:ℝ) * Real.pi * 2 = Real.pi := by ring
  simp only [generateTreePosition, ht, ha, hb, Real.cos_zero, Real.cos_pi] at hx
  norm_num at hx

/-- Claim C2 as amended: only the height is deterministic. For every pair
(index, total), any two calls to the tree-position generator with identical
(index, total) yield identical y coordinates, whatever the two per-call
random draws are; the horizontal placement depends on the draws. -/
theorem C2_amended (index total : ℕ) (r1 r2 r1' r2' : ℝ) :
    (generateTreePosition index total r1 r2).2.1 =
      (generateTreePosition index total r1' r2').2.1 := rfl

/-- The squared distance from origin of a galaxy sample, in closed form:
radius^2 scaled down by the vertical compression's effect. -/
lemma galaxy_point_normSq (r1 r2 r3 : ℝ) (h3 : 0 ≤ r3) (h3' : r3 ≤ 1) :
    normSq3 (generateGalaxyPosition r1 r2 r3) =
      (5 + r1 * 10) ^ 2 *
        (1 - 3/4 * ((1 - (2 * r3 - 1) ^ 2) * Real.sin (r2 * Real.pi * 2) ^ 2)) := by
  have hc1 : (-1:ℝ) ≤ 2 * r3 - 1 := by linarith
  have hc2 : 2 * r3 - 1 ≤ 1 := by linarith
  have hcos : Real.cos (Real.arccos (2 * r3 - 1)) = 2 * r3 - 1 := Real.cos_arccos hc1 hc2
  have hsin2 : Real.sin (Real.arccos (2 * r3 - 1)) ^ 2 = 1 - (2 * r3 - 1) ^ 2 := by
    rw [Real.sin_arccos]
    exact Real.sq_sqrt (by nlinarith)
  have hpyth := Real.sin_sq_add_cos_sq (r2 * Real.pi * 2)
  simp only [normSq3, generateGalaxyPosition]
  rw [hcos]
  linear_combination
    ((5 + r1 * 10) ^ 2 * Real.cos (r2 * Real.pi * 2) ^ 2 +
      (5 + r1 * 10) ^ 2 * Real.sin (r2 * Real.pi * 2) ^ 2 / 4) * hsin2 +
    (5 + r1 * 10) ^ 2 * (1 - (2 * r3 - 1) ^ 2) * hpyth

/-- Squared-distance bounds for a galaxy sample with draws in the generator's
domain: between (innerRadius/2)^2 and outerRadius^2. -/
lemma galaxy_normSq_bounds (r1 r2 r3 : ℝ) (h1 : 0 ≤ r1) (h1' : r1 < 1)
    (h3 : 0 ≤ r3) (h3' : r3 ≤ 1) :
    (5/2) ^ 2 ≤ normSq3 (generateGalaxyPosition r1 r2 r3) ∧
    normSq3 (generateGalaxyPosition r1 r2 r3) ≤ 15 ^ 2 := by
  rw [galaxy_point_normSq r1 r2 r3 h3 h3']
  have hs1 : Real.sin (r2 * Real.pi * 2) ^ 2 ≤ 1 := Real.sin_sq_le_one _
  have hs0 : 0 ≤ Real.sin (r2 * Real.pi * 2) ^ 2 := sq_nonneg _
  have hcc : (2 * r3 - 1) ^ 2 ≤ 1 := by nlinarith
  have hcc0 : 0 ≤ (2 * r3 - 1) ^ 2 := sq_nonneg _
  set S := (1 - (2 * r3 - 1) ^ 2) * Real.sin (r2 * Real.pi * 2) ^ 2 with hS
  have hS0 : 0 ≤ S := mul_nonneg (by linarith) hs0
  have hS1 : S ≤ 1 := by nlinarith
  have hR2 : (25:ℝ) ≤ (5 + r1 * 10) ^ 2 := by nlinarith
  have hR2' : (5 + r1 * 10) ^ 2 ≤ 225 := by nlinarith
  constructor
  · nlinarith [mul_nonneg (by linarith : (0:ℝ) ≤ (5 + r1 * 10) ^ 2 - 25)
      (by linarith : (0:ℝ) ≤ 1 - 3/4 * S - 1/4)]
  · nlinarith [mul_nonneg (by linarith : (0:ℝ) ≤ (5 + r1 * 10) ^ 2) hS0]

/-- Counterexample to claim C8: with draws (0, 1/4, 1/2) the galaxy generator
returns the point (0, 2.5, 0), whose distance from the origin is 2.5 — below
the claimed inner bound of 5 (the vertical compression shrinks the distance
of near-equatorial samples). -/
theorem C8_counterexample : norm3 (generateGalaxyPosition 0 (1/4) (1/2)) < 5 := by
  have hθ : (1/4:ℝ) * Real.pi * 2 = Real.pi/2 := by ring
  have hφ : (2:ℝ) * (1/2) - 1 = 0 := by norm_num
  simp only [norm3, normSq3, generateGalaxyPosition, hθ, hφ, Real.arccos_zero,
    Real.sin_pi_div_two, Real.cos_pi_div_two]
  rw [show ((5 + 0 * 10) * 1 * 0) ^ 2 + ((5 + 0 * 10) * 1 * 1 * 0.5) ^ 2 +
      ((5 + 0 * 10) * 0) ^ 2 = ((5/2:ℝ)) ^ 2 by norm_num]
  rw [Real.sqrt_sq (by norm_num : (0:ℝ) ≤ 5/2)]
  norm_num

/-- Claim C8 as amended: every galaxy sample with draws in [0,1) x anything x
[0,1] lies within distance [innerRadius/2, outerRadius] = [2.5, 15] of the
origin (the claimed lower bound 5 holds only before the 0.5 vertical
compression, which can halve the distance), and the y component is exactly
the uncompressed spherical y scaled by 0.5. -/
theorem C8_amended (r1 r2 r3 : ℝ) (h1 : 0 ≤ r1) (h1' : r1 < 1)
    (h3 : 0 ≤ r3) (h3' : r3 ≤ 1) :
    5/2 ≤ norm3 (generateGalaxyPosition r1 r2 r3) ∧
    norm3 (generateGalaxyPosition r1 r2 r3) ≤ 15 ∧
    (generateGalaxyPosition r1 r2 r3).2.1 =
      (5 + r1 * 10) * Real.sin (Real.arccos (2 * r3 - 1)) *
        Real.sin (r2 * Real.pi * 2) * 0.5 := by
  obtain ⟨hlo, hhi⟩ := galaxy_normSq_bounds r1 r2 r3 h1 h1' h3 h3'
  refine ⟨?_, ?_, rfl⟩
  · have h := Real.sqrt_le_sqrt hlo
    rwa [Real.sqrt_sq (by norm_num : (0:ℝ) ≤ 5/2)] at h
  · have h := Real.sqrt_le_sqrt hhi
    rwa [Real.sqrt_sq (by norm_num : (0:ℝ) ≤ 15)] at h

/-- Witness for the amended C8 at draws (0, 0, 1/2). -/
theorem C8_witness :
    ((0:ℝ) ≤ 0 ∧ (0:ℝ) < 1 ∧ (0:ℝ) ≤ 1/2 ∧ (1/2:ℝ) ≤ 1) ∧
    (5/2 ≤ norm3 (generateGalaxyPosition 0 0 (1/2)) ∧
     norm3 (generateGalaxyPosition 0 0 (1/2)) ≤ 15 ∧
     (generateGalaxyPosition 0 0 (1/2)).2.1 =
       (5 + 0 * 10) * Real.sin (Real.arccos (2 * (1/2) - 1)) *
         Real.sin (0 * Real.pi * 2) * 0.5) :=
  ⟨⟨by norm_num, by norm_num, by norm_num, by norm_num⟩,
   C8_amended 0 0 (1/2) (by norm_num) (by norm_num) (by norm_num) (by norm_num)⟩

end Christmas
